import Mathlib

/-!
# Verification of the FishLog persistence service

Shallow embedding of `src/services/database.ts` (class `DatabaseService`):
the SQLite-backed store is modelled as an explicit state (`DB` inside an
`Option`, mirroring the nullable `this.db` handle), each `async` method
becomes a function from state (plus the `new Date().toISOString()` value,
passed explicitly as a `now : String` argument) to an `Except` result,
mirroring `throw new Error(...)`.

SQL semantics used by the embedding:
* `INSERT` appends a row; `AUTOINCREMENT` ids come from a counter that is
  never reused.
* `SELECT ... ORDER BY` sorts with a stable sort under the given keys;
  TEXT columns compare with Lean's `String` linear order (binary collation).
* `LIMIT n OFFSET m` takes `n` rows after dropping `m`.
* `UPDATE ... WHERE id = ?` rewrites exactly the matching rows.
* The `FOREIGN KEY (trip_id) REFERENCES fishing_trips (id) ON DELETE
  CASCADE` constraint declared in `createTables` makes `DELETE` on a trip
  also delete its catches, and rejects inserting a catch whose `trip_id`
  matches no trip.
* JavaScript truthiness in the service code (`x || null`, `if (updates.f)`)
  is translated field-by-field: for a `string`-typed value the falsy values
  are `undefined` and `""`; for a `number`-typed value they are `undefined`
  and `0`.

REAL columns are modelled as `ℚ`; TEXT columns as `String`; the 0/1 INTEGER
encoding of booleans as `Nat`.
-/

namespace FishLog

/-- Interface `FishingTrip` of `database.ts`, also the shape of a row of the
`fishing_trips` table (reads return rows unconverted, with SQL NULL as
`none`). -/
structure FishingTrip where
  id : Nat
  date : String
  startTime : String
  endTime : Option String
  locationName : String
  latitude : Option ℚ
  longitude : Option ℚ
  weather : Option String
  temperature : Option ℚ
  notes : Option String
  createdAt : String
  updatedAt : String
deriving DecidableEq

/-- Argument of `createTrip`: `Omit<FishingTrip, 'id'|'createdAt'|'updatedAt'>`. -/
structure TripInput where
  date : String
  startTime : String
  endTime : Option String := none
  locationName : String
  latitude : Option ℚ := none
  longitude : Option ℚ := none
  weather : Option String := none
  temperature : Option ℚ := none
  notes : Option String := none
deriving DecidableEq

/-- A stored row of the `catches` table: `released` kept in its 0/1 INTEGER
representation. -/
structure CatchRow where
  id : Nat
  tripId : Nat
  species : String
  length : Option ℚ
  weight : Option ℚ
  bait : Option String
  lure : Option String
  method : Option String
  time : String
  photoUri : Option String
  notes : Option String
  released : Nat
  createdAt : String
  updatedAt : String
deriving DecidableEq

/-- Interface `Catch` of `database.ts`: what the read paths return, with
`released` converted back to a boolean. -/
structure Catch where
  id : Nat
  tripId : Nat
  species : String
  length : Option ℚ
  weight : Option ℚ
  bait : Option String
  lure : Option String
  method : Option String
  time : String
  photoUri : Option String
  notes : Option String
  released : Bool
  createdAt : String
  updatedAt : String
deriving DecidableEq

/-- Argument of `createCatch`: `Omit<Catch, 'id'|'createdAt'|'updatedAt'>`. -/
structure CatchInput where
  tripId : Nat
  species : String
  length : Option ℚ := none
  weight : Option ℚ := none
  bait : Option String := none
  lure : Option String := none
  method : Option String := none
  time : String
  photoUri : Option String := none
  notes : Option String := none
  released : Bool
deriving DecidableEq

/-- A stored row of the `locations` table (`is_favorite` as 0/1 INTEGER). -/
structure LocationRow where
  id : Nat
  name : String
  latitude : ℚ
  longitude : ℚ
  description : Option String
  isFavorite : Nat
  createdAt : String
  updatedAt : String
deriving DecidableEq

/-- Interface `Location` of `database.ts` as returned by `getLocations`. -/
structure Location where
  id : Nat
  name : String
  latitude : ℚ
  longitude : ℚ
  description : Option String
  isFavorite : Bool
  createdAt : String
  updatedAt : String
deriving DecidableEq

/-- Argument of `createLocation`. -/
structure LocationInput where
  name : String
  latitude : ℚ
  longitude : ℚ
  description : Option String := none
  isFavorite : Bool
deriving DecidableEq

/-- Result shape of `getSpeciesStats` (`{species, count}`). -/
structure SpeciesCount where
  species : String
  count : Nat
deriving DecidableEq

/-- Result shape of `getTripStats`. -/
structure TripStats where
  totalTrips : Nat
  totalCatches : Nat
  avgCatchesPerTrip : ℚ
  favoriteSpecies : Option String
deriving DecidableEq

/-- The persistent store: the three tables plus the AUTOINCREMENT counters. -/
structure DB where
  trips : List FishingTrip
  catches : List CatchRow
  locations : List LocationRow
  nextTripId : Nat
  nextCatchId : Nat
  nextLocationId : Nat
deriving DecidableEq

/-- The `DatabaseService` instance state: `private db: SQLiteDatabase | null`. -/
structure ServiceState where
  db : Option DB
deriving DecidableEq

instance {ε α : Type} [DecidableEq ε] [DecidableEq α] : DecidableEq (Except ε α) :=
  fun a b =>
    match a, b with
    | .error e, .error f =>
      if h : e = f then .isTrue (by rw [h]) else .isFalse (by simp [h])
    | .error _, .ok _ => .isFalse (by simp)
    | .ok _, .error _ => .isFalse (by simp)
    | .ok x, .ok y =>
      if h : x = y then .isTrue (by rw [h]) else .isFalse (by simp [h])

/-- The freshly created store: empty tables, ids starting at 1. -/
def emptyDB : DB := ⟨[], [], [], 1, 1, 1⟩

/-- JavaScript `v || null` for a `string | undefined` value: both
`undefined` and the empty string are falsy and coerce to `null`. -/
def jsOrNullStr : Option String → Option String
  | some v => if v = "" then none else some v
  | none => none

/-- JavaScript `v || null` for a `number | undefined` value: `undefined`
and `0` are falsy and coerce to `null`. -/
def jsOrNullNum : Option ℚ → Option ℚ
  | some v => if v = 0 then none else some v
  | none => none

/-- JavaScript truthiness of a `number | undefined` argument (`if (limit)`,
`if (offset)`): `undefined` and `0` are falsy. -/
def jsTruthyNat : Option Nat → Option Nat
  | some v => if v = 0 then none else some v
  | none => none

/-- The message of every `throw new Error('Database not initialized')`. -/
def notInitialized : String := "Database not initialized"

/-! ## The TEXT collation

SQLite's default BINARY collation compares TEXT values as byte strings;
on UTF-8 this is exactly code-point order, embedded here as a structural
comparison of the character lists of the two strings. -/

/-- Strict byte-string order on character lists: the shorter list is a
prefix-smaller one, otherwise the first differing code point decides. -/
def charsLt : List Char → List Char → Bool
  | _, [] => false
  | [], _ :: _ => true
  | a :: as, b :: bs =>
    if a.toNat = b.toNat then charsLt as bs else decide (a.toNat < b.toNat)

/-- Strict BINARY-collation order on strings. -/
def strLt (a b : String) : Bool := charsLt a.data b.data

/-- Reflexive BINARY-collation order on strings. -/
def strLe (a b : String) : Bool := !(charsLt b.data a.data)

theorem charsLt_asymm :
    ∀ {x y : List Char}, charsLt x y = true → charsLt y x = false
  | _ :: _, [], h => by simp [charsLt] at h
  | [], _ :: _, _ => by simp [charsLt]
  | a :: as, b :: bs, h => by
    simp only [charsLt] at h ⊢
    by_cases e : a.toNat = b.toNat
    · rw [if_pos e] at h
      rw [if_pos e.symm]
      exact charsLt_asymm h
    · rw [if_neg e] at h
      rw [if_neg (fun e2 => e e2.symm)]
      simp only [decide_eq_true_eq] at h
      simp only [decide_eq_false_iff_not]
      omega

theorem charsLt_middle (y : List Char) :
    ∀ {x z : List Char}, charsLt x z = true →
      charsLt x y = true ∨ charsLt y z = true
  | _, [], h => by simp [charsLt] at h
  | [], c :: cs, _ => by
    cases y with
    | nil => exact Or.inr (by simp [charsLt])
    | cons b bs => exact Or.inl (by simp [charsLt])
  | a :: as, c :: cs, h => by
    cases y with
    | nil => exact Or.inr (by simp [charsLt])
    | cons b bs =>
      simp only [charsLt] at h ⊢
      rcases Nat.lt_trichotomy a.toNat b.toNat with hab | hab | hab
      · exact Or.inl (by rw [if_neg (Nat.ne_of_lt hab)]; simpa using hab)
      · by_cases ebc : b.toNat = c.toNat
        · have eac : a.toNat = c.toNat := hab.trans ebc
          rw [if_pos eac] at h
          rcases charsLt_middle bs h with h2 | h2
          · exact Or.inl (by rw [if_pos hab]; exact h2)
          · exact Or.inr (by rw [if_pos ebc]; exact h2)
        · by_cases lbc : b.toNat < c.toNat
          · exact Or.inr (by rw [if_neg ebc]; simpa using lbc)
          · exfalso
            have eac : ¬ a.toNat = c.toNat := by omega
            rw [if_neg eac] at h
            simp only [decide_eq_true_eq] at h
            omega
      · by_cases lbc : b.toNat < c.toNat
        · exact Or.inr (by rw [if_neg (Nat.ne_of_lt lbc)]; simpa using lbc)
        · exfalso
          by_cases eac : a.toNat = c.toNat
          · rw [if_pos eac] at h; omega
          · rw [if_neg eac] at h
            simp only [decide_eq_true_eq] at h
            omega

theorem char_toNat_inj {a b : Char} (h : a.toNat = b.toNat) : a = b :=
  Char.ext (UInt32.ext h)

theorem charsLt_conn :
    ∀ {x y : List Char}, charsLt x y = false → charsLt y x = false → x = y
  | [], [], _, _ => rfl
  | [], _ :: _, h1, _ => by simp [charsLt] at h1
  | _ :: _, [], _, h2 => by simp [charsLt] at h2
  | a :: as, b :: bs, h1, h2 => by
    simp only [charsLt] at h1 h2
    by_cases e : a.toNat = b.toNat
    · rw [if_pos e] at h1
      rw [if_pos e.symm] at h2
      rw [char_toNat_inj e, charsLt_conn h1 h2]
    · rw [if_neg e] at h1
      rw [if_neg (fun e2 => e e2.symm)] at h2
      simp only [decide_eq_false_iff_not] at h1 h2
      omega

theorem strLt_trans {a b c : String} (h1 : strLt a b = true)
    (h2 : strLt b c = true) : strLt a c = true := by
  rcases charsLt_middle c.data h1 with h | h
  · exact h
  · rw [charsLt_asymm h2] at h; exact absurd h (by simp)

theorem strLe_total (a b : String) : strLe a b = true ∨ strLe b a = true := by
  unfold strLe
  cases h : charsLt a.data b.data with
  | false => exact Or.inr (by simp [h])
  | true => exact Or.inl (by simp [charsLt_asymm h])

theorem strLe_trans {a b c : String} (h1 : strLe a b = true)
    (h2 : strLe b c = true) : strLe a c = true := by
  unfold strLe at *
  simp only [Bool.not_eq_true', Bool.not_eq_false] at *
  cases h : charsLt c.data a.data with
  | false => rfl
  | true =>
    rcases charsLt_middle b.data h with hc | hc
    · rw [h2] at hc; exact hc.symm
    · rw [h1] at hc; exact hc.symm

theorem str_eq_of_not_lt {a b : String} (h1 : strLt a b = false)
    (h2 : strLt b a = false) : a = b := by
  have := charsLt_conn h1 h2
  cases a with
  | mk da => cases b with
    | mk db => exact congrArg String.mk this

/-! ## Sort orders used by the SELECT queries -/

/-- `ORDER BY date DESC, start_time DESC` of `getTrips`: row `a` may come
before row `b` when `a` has the later date, or the same date and the
later-or-equal start time. -/
def tripRecent (a b : FishingTrip) : Prop :=
  strLt b.date a.date = true ∨
    (b.date = a.date ∧ strLe b.startTime a.startTime = true)

instance : DecidableRel tripRecent := fun a b => by
  unfold tripRecent; exact inferInstance

instance : IsTotal FishingTrip tripRecent where
  total a b := by
    unfold tripRecent
    cases h1 : strLt b.date a.date with
    | true => exact Or.inl (Or.inl rfl)
    | false =>
      cases h2 : strLt a.date b.date with
      | true => exact Or.inr (Or.inl rfl)
      | false =>
        have e : b.date = a.date := str_eq_of_not_lt h1 h2
        rcases strLe_total b.startTime a.startTime with h | h
        · exact Or.inl (Or.inr ⟨e, h⟩)
        · exact Or.inr (Or.inr ⟨e.symm, h⟩)

instance : IsTrans FishingTrip tripRecent where
  trans a b c hab hbc := by
    unfold tripRecent at *
    rcases hab with h1 | ⟨e1, l1⟩
    · rcases hbc with h2 | ⟨e2, _⟩
      · exact Or.inl (strLt_trans h2 h1)
      · exact Or.inl (e2 ▸ h1)
    · rcases hbc with h2 | ⟨e2, l2⟩
      · exact Or.inl (e1 ▸ h2)
      · exact Or.inr ⟨e2.trans e1, strLe_trans l2 l1⟩

/-- `ORDER BY time ASC` of `getCatchesByTripId`. -/
def rowTimeLE (a b : CatchRow) : Prop := strLe a.time b.time = true

instance : DecidableRel rowTimeLE := fun a b => by
  unfold rowTimeLE; exact inferInstance

instance : IsTotal CatchRow rowTimeLE := ⟨fun a b => strLe_total a.time b.time⟩

instance : IsTrans CatchRow rowTimeLE :=
  ⟨fun _ _ _ h1 h2 => strLe_trans h1 h2⟩

/-- `ORDER BY created_at DESC` of `getAllCatches`. -/
def rowCreatedDesc (a b : CatchRow) : Prop := strLe b.createdAt a.createdAt = true

instance : DecidableRel rowCreatedDesc := fun a b => by
  unfold rowCreatedDesc; exact inferInstance

instance : IsTotal CatchRow rowCreatedDesc :=
  ⟨fun a b => strLe_total b.createdAt a.createdAt⟩

instance : IsTrans CatchRow rowCreatedDesc :=
  ⟨fun _ _ _ h1 h2 => strLe_trans h2 h1⟩

/-- `ORDER BY name ASC` of `getLocations`. -/
def locNameLE (a b : LocationRow) : Prop := strLe a.name b.name = true

instance : DecidableRel locNameLE := fun a b => by
  unfold locNameLE; exact inferInstance

instance : IsTotal LocationRow locNameLE := ⟨fun a b => strLe_total a.name b.name⟩

instance : IsTrans LocationRow locNameLE :=
  ⟨fun _ _ _ h1 h2 => strLe_trans h1 h2⟩

/-- `ORDER BY count DESC` of the species aggregation queries. -/
def countDesc (a b : SpeciesCount) : Prop := b.count ≤ a.count

instance : DecidableRel countDesc := fun a b => by
  unfold countDesc; exact inferInstance

instance : IsTotal SpeciesCount countDesc := ⟨fun a b => le_total b.count a.count⟩

instance : IsTrans SpeciesCount countDesc :=
  ⟨fun _ _ _ h1 h2 => le_trans h2 h1⟩

/-! ## Operations of `DatabaseService` -/

/-- Method `initialize()`: opens (or reopens) the persistent `fishlog.db`
file and runs `createTables`, whose statements are all
`CREATE TABLE IF NOT EXISTS` / `CREATE INDEX IF NOT EXISTS`, so an already
populated store is kept as is and a missing one starts empty. -/
def initService (s : ServiceState) : ServiceState :=
  ⟨some (s.db.getD emptyDB)⟩

/-- The row inserted by `createTrip`: every optional column goes through the
JavaScript `|| null` coercion of the source, both timestamps are `now`. -/
def encodeTrip (t : TripInput) (tid : Nat) (now : String) : FishingTrip :=
  { id := tid
    date := t.date
    startTime := t.startTime
    endTime := jsOrNullStr t.endTime
    locationName := t.locationName
    latitude := jsOrNullNum t.latitude
    longitude := jsOrNullNum t.longitude
    weather := jsOrNullStr t.weather
    temperature := jsOrNullNum t.temperature
    notes := jsOrNullStr t.notes
    createdAt := now
    updatedAt := now }

/-- `createTrip` on an open store. -/
def createTripDB (d : DB) (t : TripInput) (now : String) : Nat × DB :=
  (d.nextTripId,
   { d with
       trips := d.trips ++ [encodeTrip t d.nextTripId now]
       nextTripId := d.nextTripId + 1 })

/-- Method `createTrip(trip)`. -/
def createTrip (s : ServiceState) (t : TripInput) (now : String) :
    Except String (Nat × ServiceState) :=
  match s.db with
  | none => .error notInitialized
  | some d =>
    let r := createTripDB d t now
    .ok (r.1, ⟨some r.2⟩)

/-- The sorted full result set of `getTrips`. -/
def sortTrips (l : List FishingTrip) : List FishingTrip :=
  l.insertionSort tripRecent

/-- Method `getTrips(limit?, offset?)`: the LIMIT clause is appended only
when `limit` is truthy, and inside it the OFFSET clause only when `offset`
is truthy. -/
def getTrips (s : ServiceState) (limit offset : Option Nat) :
    Except String (List FishingTrip) :=
  match s.db with
  | none => .error notInitialized
  | some d =>
    let sorted := sortTrips d.trips
    .ok (match jsTruthyNat limit with
      | none => sorted
      | some n =>
        (match jsTruthyNat offset with
          | none => sorted
          | some m => sorted.drop m).take n)

/-- Method `getTripById(id)`: first row matching the WHERE clause, else null. -/
def getTripById (s : ServiceState) (id : Nat) :
    Except String (Option FishingTrip) :=
  match s.db with
  | none => .error notInitialized
  | some d => .ok (d.trips.find? (fun t => t.id == id))

/-- Argument of `updateTrip`: `Partial<FishingTrip>`, each field either
absent (`none`) or present with a value. -/
structure TripUpdate where
  date : Option String := none
  startTime : Option String := none
  endTime : Option String := none
  locationName : Option String := none
  latitude : Option ℚ := none
  longitude : Option ℚ := none
  weather : Option String := none
  temperature : Option ℚ := none
  notes : Option String := none
deriving DecidableEq

/-- The SET clauses of `updateTrip` applied to one matching row: `date`,
`startTime` and `locationName` are guarded by JavaScript truthiness
(`if (updates.date)`), so a present empty string builds no clause; the other
six fields are guarded by presence (`!== undefined`); `updated_at` is always
set to `now`. -/
def applyTripUpdate (t : FishingTrip) (u : TripUpdate) (now : String) :
    FishingTrip :=
  { t with
    date := match u.date with
      | some v => if v = "" then t.date else v
      | none => t.date
    startTime := match u.startTime with
      | some v => if v = "" then t.startTime else v
      | none => t.startTime
    locationName := match u.locationName with
      | some v => if v = "" then t.locationName else v
      | none => t.locationName
    endTime := match u.endTime with
      | some v => some v
      | none => t.endTime
    latitude := match u.latitude with
      | some v => some v
      | none => t.latitude
    longitude := match u.longitude with
      | some v => some v
      | none => t.longitude
    weather := match u.weather with
      | some v => some v
      | none => t.weather
    temperature := match u.temperature with
      | some v => some v
      | none => t.temperature
    notes := match u.notes with
      | some v => some v
      | none => t.notes
    updatedAt := now }

/-- `updateTrip` on an open store: `UPDATE fishing_trips SET ... WHERE id = ?`
rewrites exactly the rows whose id matches. -/
def updateTripDB (d : DB) (id : Nat) (u : TripUpdate) (now : String) : DB :=
  { d with
      trips := d.trips.map (fun t => if t.id = id then applyTripUpdate t u now else t) }

/-- Method `updateTrip(id, updates)`. -/
def updateTrip (s : ServiceState) (id : Nat) (u : TripUpdate) (now : String) :
    Except String ServiceState :=
  match s.db with
  | none => .error notInitialized
  | some d => .ok ⟨some (updateTripDB d id u now)⟩

/-- `deleteTrip` on an open store: `DELETE FROM fishing_trips WHERE id = ?`;
the `ON DELETE CASCADE` foreign key declared on `catches.trip_id` removes
every catch of the deleted trip. -/
def deleteTripDB (d : DB) (id : Nat) : DB :=
  { d with
      trips := d.trips.filter (fun t => !(t.id == id))
      catches := d.catches.filter (fun c => !(c.tripId == id)) }

/-- Method `deleteTrip(id)`. -/
def deleteTrip (s : ServiceState) (id : Nat) : Except String ServiceState :=
  match s.db with
  | none => .error notInitialized
  | some d => .ok ⟨some (deleteTripDB d id)⟩

/-- The row inserted by `createCatch`: the optional columns go through
`|| null`, `released` is encoded as `released ? 1 : 0`. -/
def encodeCatch (c : CatchInput) (cid : Nat) (now : String) : CatchRow :=
  { id := cid
    tripId := c.tripId
    species := c.species
    length := jsOrNullNum c.length
    weight := jsOrNullNum c.weight
    bait := jsOrNullStr c.bait
    lure := jsOrNullStr c.lure
    method := jsOrNullStr c.method
    time := c.time
    photoUri := jsOrNullStr c.photoUri
    notes := jsOrNullStr c.notes
    released := if c.released then 1 else 0
    createdAt := now
    updatedAt := now }

/-- Whether a trip with the given id exists (the FOREIGN KEY check of the
`catches` table). -/
def tripExists (d : DB) (id : Nat) : Bool :=
  d.trips.any (fun t => t.id == id)

/-- The successful branch of `createCatch` on an open store. -/
def createCatchDB (d : DB) (c : CatchInput) (now : String) : Nat × DB :=
  (d.nextCatchId,
   { d with
       catches := d.catches ++ [encodeCatch c d.nextCatchId now]
       nextCatchId := d.nextCatchId + 1 })

/-- Method `createCatch(catch)`: the INSERT fails on the declared foreign
key when `tripId` references no trip. -/
def createCatch (s : ServiceState) (c : CatchInput) (now : String) :
    Except String (Nat × ServiceState) :=
  match s.db with
  | none => .error notInitialized
  | some d =>
    if tripExists d c.tripId then
      .ok ((createCatchDB d c now).1, ⟨some (createCatchDB d c now).2⟩)
    else
      .error "FOREIGN KEY constraint failed"

/-- The row-to-interface conversion of the catch read paths:
`released: row.released === 1`. -/
def decodeCatch (r : CatchRow) : Catch :=
  { id := r.id
    tripId := r.tripId
    species := r.species
    length := r.length
    weight := r.weight
    bait := r.bait
    lure := r.lure
    method := r.method
    time := r.time
    photoUri := r.photoUri
    notes := r.notes
    released := r.released == 1
    createdAt := r.createdAt
    updatedAt := r.updatedAt }

/-- Method `getCatchesByTripId(tripId)`: WHERE on the trip id, ORDER BY
time ASC, then the boolean conversion on every returned row. -/
def getCatchesByTripId (s : ServiceState) (tripId : Nat) :
    Except String (List Catch) :=
  match s.db with
  | none => .error notInitialized
  | some d =>
    .ok (((d.catches.filter (fun c => c.tripId == tripId)).insertionSort
        rowTimeLE).map decodeCatch)

/-- Method `getAllCatches(limit?, offset?)`: ORDER BY created_at DESC, the
same truthiness-guarded LIMIT/OFFSET as `getTrips`, then the boolean
conversion. -/
def getAllCatches (s : ServiceState) (limit offset : Option Nat) :
    Except String (List Catch) :=
  match s.db with
  | none => .error notInitialized
  | some d =>
    let sorted := d.catches.insertionSort rowCreatedDesc
    .ok ((match jsTruthyNat limit with
      | none => sorted
      | some n =>
        (match jsTruthyNat offset with
          | none => sorted
          | some m => sorted.drop m).take n).map decodeCatch)

/-- Argument of `updateCatch`: `Partial<Catch>`. -/
structure CatchUpdate where
  species : Option String := none
  length : Option ℚ := none
  weight : Option ℚ := none
  bait : Option String := none
  lure : Option String := none
  method : Option String := none
  time : Option String := none
  photoUri : Option String := none
  notes : Option String := none
  released : Option Bool := none
deriving DecidableEq

/-- The SET clauses of `updateCatch` on one matching row: `species` and
`time` are guarded by truthiness, the rest by presence; `released` is
re-encoded as 0/1; `updated_at` is always set. -/
def applyCatchUpdate (r : CatchRow) (u : CatchUpdate) (now : String) :
    CatchRow :=
  { r with
    species := match u.species with
      | some v => if v = "" then r.species else v
      | none => r.species
    length := match u.length with
      | some v => some v
      | none => r.length
    weight := match u.weight with
      | some v => some v
      | none => r.weight
    bait := match u.bait with
      | some v => some v
      | none => r.bait
    lure := match u.lure with
      | some v => some v
      | none => r.lure
    method := match u.method with
      | some v => some v
      | none => r.method
    time := match u.time with
      | some v => if v = "" then r.time else v
      | none => r.time
    photoUri := match u.photoUri with
      | some v => some v
      | none => r.photoUri
    notes := match u.notes with
      | some v => some v
      | none => r.notes
    released := match u.released with
      | some b => if b then 1 else 0
      | none => r.released
    updatedAt := now }

/-- Method `updateCatch(id, updates)`. -/
def updateCatch (s : ServiceState) (id : Nat) (u : CatchUpdate) (now : String) :
    Except String ServiceState :=
  match s.db with
  | none => .error notInitialized
  | some d =>
    .ok ⟨some { d with
        catches := d.catches.map (fun r => if r.id = id then applyCatchUpdate r u now else r) }⟩

/-- Method `deleteCatch(id)`. -/
def deleteCatch (s : ServiceState) (id : Nat) : Except String ServiceState :=
  match s.db with
  | none => .error notInitialized
  | some d =>
    .ok ⟨some { d with catches := d.catches.filter (fun c => !(c.id == id)) }⟩

/-- The grouped, count-descending result of
`SELECT species, COUNT(*) FROM catches GROUP BY species ORDER BY count DESC`:
one entry per distinct species with its row count. -/
def speciesGroups (catches : List CatchRow) : List SpeciesCount :=
  ((catches.map (fun c => c.species)).dedup.map
    (fun sp => ⟨sp, catches.countP (fun c => c.species == sp)⟩)).insertionSort
    countDesc

/-- Method `getTripStats()`: the two COUNT(*) queries (whose single result
row always carries a count, so the `?.count || 0` coercion returns the
count itself), the guarded average, and the LIMIT 1 of the species ranking
run through `?.species || null` (JavaScript `||`, so an empty species
string also coerces to null). -/
def getTripStats (s : ServiceState) : Except String TripStats :=
  match s.db with
  | none => .error notInitialized
  | some d =>
    let tripsCount := d.trips.length
    let catchesCount := d.catches.length
    .ok { totalTrips := tripsCount
          totalCatches := catchesCount
          avgCatchesPerTrip :=
            if tripsCount > 0 then (catchesCount : ℚ) / (tripsCount : ℚ) else 0
          favoriteSpecies :=
            jsOrNullStr ((speciesGroups d.catches).head?.map
              (fun g => g.species)) }

/-- Method `getSpeciesStats()`. -/
def getSpeciesStats (s : ServiceState) : Except String (List SpeciesCount) :=
  match s.db with
  | none => .error notInitialized
  | some d => .ok (speciesGroups d.catches)

/-- The row inserted by `createLocation`: latitude/longitude are mandatory
and stored as given; `description` goes through `|| null`; `isFavorite` is
encoded 0/1. -/
def encodeLocation (l : LocationInput) (lid : Nat) (now : String) : LocationRow :=
  { id := lid
    name := l.name
    latitude := l.latitude
    longitude := l.longitude
    description := jsOrNullStr l.description
    isFavorite := if l.isFavorite then 1 else 0
    createdAt := now
    updatedAt := now }

/-- `createLocation` on an open store. -/
def createLocationDB (d : DB) (l : LocationInput) (now : String) : Nat × DB :=
  (d.nextLocationId,
   { d with
       locations := d.locations ++ [encodeLocation l d.nextLocationId now]
       nextLocationId := d.nextLocationId + 1 })

/-- Method `createLocation(location)`. -/
def createLocation (s : ServiceState) (l : LocationInput) (now : String) :
    Except String (Nat × ServiceState) :=
  match s.db with
  | none => .error notInitialized
  | some d =>
    .ok ((createLocationDB d l now).1, ⟨some (createLocationDB d l now).2⟩)

/-- The row-to-interface conversion of `getLocations`:
`isFavorite: row.isFavorite === 1`. -/
def decodeLocation (r : LocationRow) : Location :=
  { id := r.id
    name := r.name
    latitude := r.latitude
    longitude := r.longitude
    description := r.description
    isFavorite := r.isFavorite == 1
    createdAt := r.createdAt
    updatedAt := r.updatedAt }

/-- Method `getLocations(favoritesOnly = false)`: optional
`WHERE is_favorite = 1`, ORDER BY name ASC, boolean conversion on read. -/
def getLocations (s : ServiceState) (favoritesOnly : Bool) :
    Except String (List Location) :=
  match s.db with
  | none => .error notInitialized
  | some d =>
    .ok (((if favoritesOnly then
        d.locations.filter (fun r => r.isFavorite == 1)
      else d.locations).insertionSort locNameLE).map decodeLocation)

/-! ## Concrete scenario material -/

/-- A minimal `createTrip` argument: the three mandatory fields. -/
def mkTripInput (dt st : String) : TripInput :=
  { date := dt, startTime := st, locationName := "Lake" }

/-- Extracts the post-call state of a create operation (used only to chain
concrete scenarios; the result is inspected with the service's own reads). -/
def stepState (r : Except String (Nat × ServiceState)) : ServiceState :=
  (r.map Prod.snd).toOption.getD ⟨none⟩

/-- Five trips created in mixed chronological order, as in the spec's
pagination example. -/
def fiveTripState : ServiceState :=
  stepState (createTrip (stepState (createTrip (stepState (createTrip
    (stepState (createTrip (stepState (createTrip (initService ⟨none⟩)
      (mkTripInput "2024-05-01" "08:00") "T0"))
      (mkTripInput "2024-05-02" "06:00") "T0"))
      (mkTripInput "2024-05-01" "18:00") "T0"))
      (mkTripInput "2024-04-30" "12:00") "T0"))
      (mkTripInput "2024-05-03" "07:00") "T0")

/-- The store behind `fiveTripState`. -/
def fiveTripDB : DB := (fiveTripState.db).getD emptyDB

/-- A `createCatch` argument with only the mandatory fields set. -/
def mkCatchInput (tripId : Nat) (sp tm : String) (rel : Bool) : CatchInput :=
  { tripId := tripId, species := sp, time := tm, released := rel }

/-- One trip and five catches: species Bass three times and Trout twice
(the spec's species-statistics example). -/
def bassTroutState : ServiceState :=
  stepState (createCatch (stepState (createCatch (stepState (createCatch
    (stepState (createCatch (stepState (createCatch (stepState (createTrip
      (initService ⟨none⟩) (mkTripInput "2024-05-01" "08:00") "T0"))
      (mkCatchInput 1 "Bass" "09:00" true) "T1"))
      (mkCatchInput 1 "Bass" "09:30" false) "T2"))
      (mkCatchInput 1 "Trout" "10:00" true) "T3"))
      (mkCatchInput 1 "Bass" "10:30" false) "T4"))
      (mkCatchInput 1 "Trout" "11:00" true) "T5")

/-- The store behind `bassTroutState`. -/
def bassTroutDB : DB := (bassTroutState.db).getD emptyDB

/-! ## Claim theorems -/

/-- C9. Every CRUD and statistics operation invoked on the state with no
open store handle fails with the "Database not initialized" error (and, the
result being an error, produces no successor state), while a second
`initialize` is a no-op on an initialized state and operations afterwards
do not fail with that error. -/
theorem operations_guarded_and_init_idempotent
    (t : TripInput) (u : TripUpdate) (c : CatchInput) (cu : CatchUpdate)
    (l : LocationInput) (now : String) (id : Nat) (lim off : Option Nat)
    (fav : Bool) (s : ServiceState) :
    createTrip ⟨none⟩ t now = .error notInitialized ∧
    getTrips ⟨none⟩ lim off = .error notInitialized ∧
    getTripById ⟨none⟩ id = .error notInitialized ∧
    updateTrip ⟨none⟩ id u now = .error notInitialized ∧
    deleteTrip ⟨none⟩ id = .error notInitialized ∧
    createCatch ⟨none⟩ c now = .error notInitialized ∧
    getCatchesByTripId ⟨none⟩ id = .error notInitialized ∧
    getAllCatches ⟨none⟩ lim off = .error notInitialized ∧
    updateCatch ⟨none⟩ id cu now = .error notInitialized ∧
    deleteCatch ⟨none⟩ id = .error notInitialized ∧
    getTripStats ⟨none⟩ = .error notInitialized ∧
    getSpeciesStats ⟨none⟩ = .error notInitialized ∧
    createLocation ⟨none⟩ l now = .error notInitialized ∧
    getLocations ⟨none⟩ fav = .error notInitialized ∧
    initService (initService s) = initService s ∧
    (∃ r, createTrip (initService s) t now = .ok r) ∧
    (∃ r, getTrips (initService s) lim off = .ok r) ∧
    (∃ r, getTripById (initService s) id = .ok r) ∧
    (∃ r, getTripStats (initService s) = .ok r) ∧
    (∃ r, getSpeciesStats (initService s) = .ok r) ∧
    (∃ r, createLocation (initService s) l now = .ok r) ∧
    (∃ r, getLocations (initService s) fav = .ok r) :=
  ⟨rfl, rfl, rfl, rfl, rfl, rfl, rfl, rfl, rfl, rfl, rfl, rfl, rfl, rfl,
   rfl, ⟨_, rfl⟩, ⟨_, rfl⟩, ⟨_, rfl⟩, ⟨_, rfl⟩, ⟨_, rfl⟩, ⟨_, rfl⟩, ⟨_, rfl⟩⟩

/-- C3. Deleting a trip also deletes, through the declared
`ON DELETE CASCADE` relationship, every catch referencing it: afterwards the
trip is gone, `getCatchesByTripId` on its id returns the empty list, no
stored catch references the deleted id any more, and referential integrity
(every catch's tripId naming an existing trip) is preserved. -/
theorem deleteTrip_cascade_removes_catches (d : DB) (id : Nat)
    (href : ∀ c ∈ d.catches, tripExists d c.tripId = true) :
    deleteTrip ⟨some d⟩ id = .ok ⟨some (deleteTripDB d id)⟩ ∧
    getTripById ⟨some (deleteTripDB d id)⟩ id = .ok none ∧
    getCatchesByTripId ⟨some (deleteTripDB d id)⟩ id = .ok [] ∧
    (∀ c ∈ (deleteTripDB d id).catches, c.tripId ≠ id) ∧
    (∀ c ∈ (deleteTripDB d id).catches,
      tripExists (deleteTripDB d id) c.tripId = true) := by
  refine ⟨rfl, ?_, ?_, ?_, ?_⟩
  · simp only [getTripById, deleteTripDB]
    rw [List.find?_eq_none.mpr]
    intro t ht
    rw [List.mem_filter] at ht
    simpa using ht.2
  · simp only [getCatchesByTripId, deleteTripDB]
    rw [show (d.catches.filter (fun c => !(c.tripId == id))).filter
          (fun c => c.tripId == id) = [] from ?_]
    · rfl
    · rw [List.filter_eq_nil_iff]
      intro c hc
      rw [List.mem_filter] at hc
      simpa using hc.2
  · intro c hc
    rw [deleteTripDB, List.mem_filter] at hc
    simpa using hc.2
  · intro c hc
    rw [deleteTripDB] at hc
    rw [List.mem_filter] at hc
    have h1 := href c hc.1
    have h2 : c.tripId ≠ id := by simpa using hc.2
    rw [tripExists, List.any_eq_true] at h1 ⊢
    obtain ⟨t, ht, htid⟩ := h1
    refine ⟨t, ?_, htid⟩
    rw [deleteTripDB, List.mem_filter]
    refine ⟨ht, ?_⟩
    have : t.id = c.tripId := by simpa using htid
    simp [this, h2]

/-- Witness for C3: deleting trip 1 of the Bass/Trout store (five catches
reference it) empties `getCatchesByTripId 1`. -/
theorem deleteTrip_cascade_removes_catches_witness :
    (∀ c ∈ bassTroutDB.catches, tripExists bassTroutDB c.tripId = true) ∧
    (deleteTrip ⟨some bassTroutDB⟩ 1 = .ok ⟨some (deleteTripDB bassTroutDB 1)⟩ ∧
     getTripById ⟨some (deleteTripDB bassTroutDB 1)⟩ 1 = .ok none ∧
     getCatchesByTripId ⟨some (deleteTripDB bassTroutDB 1)⟩ 1 = .ok [] ∧
     (∀ c ∈ (deleteTripDB bassTroutDB 1).catches, c.tripId ≠ 1) ∧
     (∀ c ∈ (deleteTripDB bassTroutDB 1).catches,
       tripExists (deleteTripDB bassTroutDB 1) c.tripId = true)) :=
  ⟨by decide, deleteTrip_cascade_removes_catches bassTroutDB 1 (by decide)⟩

/-- C4. `getTrips` returns a permutation of all stored trips sorted by
descending date with same-date ties broken by descending start time; with no
limit all rows come back, and a truthy limit with an offset returns exactly
the rows of the sorted order after skipping the offset (`take limit` after
`drop offset`). -/
theorem getTrips_sorted_and_paginated (d : DB) (l o : Nat) (hl : l ≠ 0) :
    getTrips ⟨some d⟩ none none = .ok (sortTrips d.trips) ∧
    (sortTrips d.trips).Perm d.trips ∧
    List.Sorted tripRecent (sortTrips d.trips) ∧
    getTrips ⟨some d⟩ (some l) none = .ok ((sortTrips d.trips).take l) ∧
    getTrips ⟨some d⟩ (some l) (some o) =
      .ok (((sortTrips d.trips).drop o).take l) := by
  refine ⟨rfl, List.perm_insertionSort _ _, List.sorted_insertionSort _ _, ?_, ?_⟩
  · simp [getTrips, jsTruthyNat, hl]
  · cases o with
    | zero => simp [getTrips, jsTruthyNat, hl]
    | succ m => simp [getTrips, jsTruthyNat, hl]

/-- Witness for C4: `getTrips(2, 1)` on the five-trip store — skip one, take
two of the date-descending order. -/
theorem getTrips_sorted_and_paginated_witness :
    (2 : Nat) ≠ 0 ∧
    (getTrips ⟨some fiveTripDB⟩ none none = .ok (sortTrips fiveTripDB.trips) ∧
     (sortTrips fiveTripDB.trips).Perm fiveTripDB.trips ∧
     List.Sorted tripRecent (sortTrips fiveTripDB.trips) ∧
     getTrips ⟨some fiveTripDB⟩ (some 2) none =
       .ok ((sortTrips fiveTripDB.trips).take 2) ∧
     getTrips ⟨some fiveTripDB⟩ (some 2) (some 1) =
       .ok (((sortTrips fiveTripDB.trips).drop 1).take 2)) :=
  ⟨by decide, getTrips_sorted_and_paginated fiveTripDB 2 1 (by decide)⟩

/-- C5. `getTripStats` counts all trip and catch rows; the average is the
exact quotient when at least one trip exists (so multiplying it back by the
trip count recovers the catch count) and `0` when the trip count is zero —
the division is guarded and never performed with a zero divisor — and on an
empty store the result is exactly zero counts, zero average and a null
favorite species. -/
theorem getTripStats_counts_average_safe (d d0 d1 : DB)
    (h : 0 < d.trips.length) (ht : d0.trips = []) (hc : d0.catches = [])
    (h1 : d1.trips.length = 0) :
    (∃ st, getTripStats ⟨some d⟩ = .ok st ∧
       st.totalTrips = d.trips.length ∧
       st.totalCatches = d.catches.length ∧
       st.avgCatchesPerTrip = (d.catches.length : ℚ) / (d.trips.length : ℚ) ∧
       st.avgCatchesPerTrip * (d.trips.length : ℚ) = (d.catches.length : ℚ)) ∧
    (∃ st1, getTripStats ⟨some d1⟩ = .ok st1 ∧
       st1.totalTrips = 0 ∧ st1.avgCatchesPerTrip = 0) ∧
    getTripStats ⟨some d0⟩ = .ok ⟨0, 0, 0, none⟩ := by
  refine ⟨⟨_, rfl, rfl, rfl, ?_, ?_⟩, ⟨_, rfl, h1, ?_⟩, ?_⟩
  · simp only [gt_iff_lt, h, if_pos]
  · have hne : (d.trips.length : ℚ) ≠ 0 := Nat.cast_ne_zero.mpr h.ne'
    simp only [gt_iff_lt, h, if_pos]
    exact div_mul_cancel₀ _ hne
  · simp [h1]
  · simp [getTripStats, ht, hc, speciesGroups, jsOrNullStr]

/-- Witness for C5: the Bass/Trout store has one trip and five catches, so
the average is 5; the empty store returns the all-zero record. -/
theorem getTripStats_counts_average_safe_witness :
    (0 < bassTroutDB.trips.length ∧ emptyDB.trips = [] ∧
     emptyDB.catches = [] ∧ emptyDB.trips.length = 0) ∧
    ((∃ st, getTripStats ⟨some bassTroutDB⟩ = .ok st ∧
       st.totalTrips = bassTroutDB.trips.length ∧
       st.totalCatches = bassTroutDB.catches.length ∧
       st.avgCatchesPerTrip =
         (bassTroutDB.catches.length : ℚ) / (bassTroutDB.trips.length : ℚ) ∧
       st.avgCatchesPerTrip * (bassTroutDB.trips.length : ℚ) =
         (bassTroutDB.catches.length : ℚ)) ∧
     (∃ st1, getTripStats ⟨some emptyDB⟩ = .ok st1 ∧
       st1.totalTrips = 0 ∧ st1.avgCatchesPerTrip = 0) ∧
     getTripStats ⟨some emptyDB⟩ = .ok ⟨0, 0, 0, none⟩) :=
  ⟨⟨by decide, rfl, rfl, rfl⟩,
   getTripStats_counts_average_safe bassTroutDB emptyDB emptyDB
     (by decide) rfl rfl rfl⟩

/-- One trip carrying a single catch whose species is the empty string
(species is only NOT NULL, so the empty text is storable). -/
def emptySpeciesState : ServiceState :=
  stepState (createCatch (stepState (createTrip (initService ⟨none⟩)
    (mkTripInput "2024-05-01" "08:00") "T0"))
    (mkCatchInput 1 "" "09:00" false) "T1")

/-- C6 counterexample: catches exist and the first entry of the
`getSpeciesStats` ranking has species `""`, yet
`getTripStats().favoriteSpecies` is null, not that species — the
`?.species || null` coercion also nulls an empty-string species. -/
theorem favoriteSpecies_empty_species_counterexample :
    getSpeciesStats emptySpeciesState = .ok [⟨"", 1⟩] ∧
    (getTripStats emptySpeciesState).map TripStats.favoriteSpecies = .ok none ∧
    ¬ ((getTripStats emptySpeciesState).map TripStats.favoriteSpecies =
        .ok (some "")) := by decide

/-- C6 (amended). `getSpeciesStats` returns one `{species, count}` entry per
distinct stored species, the count being that species' number of catch rows,
ordered by descending count; `getTripStats().favoriteSpecies` is the species
of the first entry of that ranking whenever catches exist and that species
is not the empty string (an empty-string top species is coerced to null by
the `|| null` read), and is null when no catches exist. -/
theorem speciesStats_ranking_and_favorite (d2 d d0 : DB) (g : SpeciesCount)
    (hg : (speciesGroups d.catches).head? = some g) (hsp : g.species ≠ "")
    (h0 : d0.catches = []) :
    getSpeciesStats ⟨some d2⟩ = .ok (speciesGroups d2.catches) ∧
    List.Sorted countDesc (speciesGroups d2.catches) ∧
    ((speciesGroups d2.catches).map SpeciesCount.species).Nodup ∧
    (∀ e ∈ speciesGroups d2.catches,
       e.count = d2.catches.countP (fun c => c.species == e.species) ∧
       e.species ∈ d2.catches.map (fun c => c.species)) ∧
    (∀ sp ∈ d2.catches.map (fun c => c.species),
       ∃ e ∈ speciesGroups d2.catches, e.species = sp) ∧
    (getTripStats ⟨some d⟩).map TripStats.favoriteSpecies = .ok (some g.species) ∧
    (getTripStats ⟨some d0⟩).map TripStats.favoriteSpecies = .ok none := by
  refine ⟨rfl, List.sorted_insertionSort _ _, ?_, ?_, ?_, ?_, ?_⟩
  · have hperm : (speciesGroups d2.catches).Perm
        ((d2.catches.map (fun c => c.species)).dedup.map
          (fun sp => (⟨sp, d2.catches.countP (fun c => c.species == sp)⟩ :
            SpeciesCount))) := List.perm_insertionSort _ _
    rw [(hperm.map SpeciesCount.species).nodup_iff]
    rw [List.map_map]
    have hcomp : (SpeciesCount.species ∘ fun sp =>
        (⟨sp, d2.catches.countP (fun c => c.species == sp)⟩ : SpeciesCount)) =
        id := rfl
    rw [hcomp, List.map_id]
    exact List.nodup_dedup _
  · intro e he
    rw [speciesGroups, List.mem_insertionSort, List.mem_map] at he
    obtain ⟨sp, hsp2, he⟩ := he
    subst he
    exact ⟨rfl, List.mem_dedup.mp hsp2⟩
  · intro sp hsp2
    refine ⟨⟨sp, d2.catches.countP (fun c => c.species == sp)⟩, ?_, rfl⟩
    rw [speciesGroups, List.mem_insertionSort]
    exact List.mem_map_of_mem _ (List.mem_dedup.mpr hsp2)
  · simp [getTripStats, Except.map, hg, jsOrNullStr, hsp]
  · simp [getTripStats, Except.map, h0, speciesGroups, jsOrNullStr]

/-- Witness for C6: Bass ×3 and Trout ×2 rank as Bass then Trout, and Bass
is the favorite species. -/
theorem speciesStats_ranking_and_favorite_witness :
    ((speciesGroups bassTroutDB.catches).head? = some ⟨"Bass", 3⟩ ∧
     ("Bass" : String) ≠ "" ∧ emptyDB.catches = []) ∧
    (getSpeciesStats ⟨some bassTroutDB⟩ = .ok (speciesGroups bassTroutDB.catches) ∧
     List.Sorted countDesc (speciesGroups bassTroutDB.catches) ∧
     ((speciesGroups bassTroutDB.catches).map SpeciesCount.species).Nodup ∧
     (∀ e ∈ speciesGroups bassTroutDB.catches,
        e.count = bassTroutDB.catches.countP (fun c => c.species == e.species) ∧
        e.species ∈ bassTroutDB.catches.map (fun c => c.species)) ∧
     (∀ sp ∈ bassTroutDB.catches.map (fun c => c.species),
        ∃ e ∈ speciesGroups bassTroutDB.catches, e.species = sp) ∧
     (getTripStats ⟨some bassTroutDB⟩).map TripStats.favoriteSpecies =
       .ok (some (⟨"Bass", 3⟩ : SpeciesCount).species) ∧
     (getTripStats ⟨some emptyDB⟩).map TripStats.favoriteSpecies = .ok none) :=
  ⟨⟨by decide, by decide, rfl⟩,
   speciesStats_ranking_and_favorite bassTroutDB bassTroutDB emptyDB
     ⟨"Bass", 3⟩ (by decide) (by decide) rfl⟩

/-- C7. `updateTrip` on an existing trip id always stamps `updatedAt` with
the current time — whatever fields the partial carries, including none at
all — keeps every absent field at its prior value, keeps id and createdAt,
and leaves all other rows (and the other tables) untouched. -/
theorem updateTrip_refreshes_updatedAt_and_frames (d : DB) (id : Nat)
    (u : TripUpdate) (now : String) (t : FishingTrip)
    (ht : t ∈ d.trips) (hid : t.id = id) :
    updateTrip ⟨some d⟩ id u now = .ok ⟨some (updateTripDB d id u now)⟩ ∧
    applyTripUpdate t u now ∈ (updateTripDB d id u now).trips ∧
    (applyTripUpdate t u now).updatedAt = now ∧
    (applyTripUpdate t u now).id = t.id ∧
    (applyTripUpdate t u now).createdAt = t.createdAt ∧
    (u.date = none → (applyTripUpdate t u now).date = t.date) ∧
    (u.startTime = none → (applyTripUpdate t u now).startTime = t.startTime) ∧
    (u.endTime = none → (applyTripUpdate t u now).endTime = t.endTime) ∧
    (u.locationName = none →
      (applyTripUpdate t u now).locationName = t.locationName) ∧
    (u.latitude = none → (applyTripUpdate t u now).latitude = t.latitude) ∧
    (u.longitude = none → (applyTripUpdate t u now).longitude = t.longitude) ∧
    (u.weather = none → (applyTripUpdate t u now).weather = t.weather) ∧
    (u.temperature = none →
      (applyTripUpdate t u now).temperature = t.temperature) ∧
    (u.notes = none → (applyTripUpdate t u now).notes = t.notes) ∧
    (∀ t2 ∈ d.trips, t2.id ≠ id → t2 ∈ (updateTripDB d id u now).trips) ∧
    (∀ t2 ∈ (updateTripDB d id u now).trips, t2.id ≠ id → t2 ∈ d.trips) ∧
    (updateTripDB d id u now).catches = d.catches ∧
    (updateTripDB d id u now).locations = d.locations := by
  refine ⟨rfl, ?_, rfl, rfl, rfl, ?_, ?_, ?_, ?_, ?_, ?_, ?_, ?_, ?_,
    ?_, ?_, rfl, rfl⟩
  · rw [updateTripDB]
    exact List.mem_map.mpr ⟨t, ht, by simp [hid]⟩
  · intro h; simp [applyTripUpdate, h]
  · intro h; simp [applyTripUpdate, h]
  · intro h; simp [applyTripUpdate, h]
  · intro h; simp [applyTripUpdate, h]
  · intro h; simp [applyTripUpdate, h]
  · intro h; simp [applyTripUpdate, h]
  · intro h; simp [applyTripUpdate, h]
  · intro h; simp [applyTripUpdate, h]
  · intro h; simp [applyTripUpdate, h]
  · intro t2 h2 hne
    rw [updateTripDB]
    exact List.mem_map.mpr ⟨t2, h2, by simp [hne]⟩
  · intro t2 h2 hne
    rw [updateTripDB, List.mem_map] at h2
    obtain ⟨t3, h3, he⟩ := h2
    by_cases h4 : t3.id = id
    · rw [if_pos h4] at he; subst he
      exact absurd h4 hne
    · rw [if_neg h4] at he; subst he; exact h3

/-- Witness for C7: updating trip 1 of the five-trip store with the empty
partial still refreshes `updatedAt`. -/
theorem updateTrip_refreshes_updatedAt_and_frames_witness :
    ((fiveTripDB.trips.head?.getD (encodeTrip (mkTripInput "x" "y") 0 "z")) ∈
       fiveTripDB.trips ∧
     (fiveTripDB.trips.head?.getD (encodeTrip (mkTripInput "x" "y") 0 "z")).id = 1) ∧
    (applyTripUpdate
       (fiveTripDB.trips.head?.getD (encodeTrip (mkTripInput "x" "y") 0 "z"))
       {} "T9").updatedAt = "T9" ∧
    applyTripUpdate
       (fiveTripDB.trips.head?.getD (encodeTrip (mkTripInput "x" "y") 0 "z"))
       {} "T9" ∈ (updateTripDB fiveTripDB 1 {} "T9").trips := by
  refine ⟨⟨by decide, by decide⟩, ?_, ?_⟩
  · exact (updateTrip_refreshes_updatedAt_and_frames fiveTripDB 1 {} "T9"
      _ (by decide) (by decide)).2.2.1
  · exact (updateTrip_refreshes_updatedAt_and_frames fiveTripDB 1 {} "T9"
      _ (by decide) (by decide)).2.1

/-- C8. The boolean fields round-trip through their 0/1 INTEGER storage:
a catch created with `released = b` comes back from `getCatchesByTripId`
and from `getAllCatches` with the boolean `b` (the reads convert the stored
integer with `=== 1`), and a location created with `isFavorite = b` comes
back from `getLocations` with the boolean `b`; the read paths return the
converted `Bool` values, never the stored integers. -/
theorem boolean_fields_round_trip (d : DB) (c : CatchInput) (lo : LocationInput)
    (now : String) (hfk : tripExists d c.tripId = true) :
    createCatch ⟨some d⟩ c now =
      .ok (d.nextCatchId, ⟨some (createCatchDB d c now).2⟩) ∧
    (∃ cs, getCatchesByTripId ⟨some (createCatchDB d c now).2⟩ c.tripId = .ok cs ∧
       ∃ c2 ∈ cs, c2.id = d.nextCatchId ∧ c2.released = c.released) ∧
    (∃ cs, getAllCatches ⟨some (createCatchDB d c now).2⟩ none none = .ok cs ∧
       ∃ c2 ∈ cs, c2.id = d.nextCatchId ∧ c2.released = c.released) ∧
    createLocation ⟨some d⟩ lo now =
      .ok (d.nextLocationId, ⟨some (createLocationDB d lo now).2⟩) ∧
    (∃ ls, getLocations ⟨some (createLocationDB d lo now).2⟩ false = .ok ls ∧
       ∃ l2 ∈ ls, l2.id = d.nextLocationId ∧ l2.isFavorite = lo.isFavorite) := by
  have hmemc : encodeCatch c d.nextCatchId now ∈ (createCatchDB d c now).2.catches := by
    rw [createCatchDB]
    exact List.mem_append_right _ (List.mem_singleton.mpr rfl)
  have hrel : (decodeCatch (encodeCatch c d.nextCatchId now)).released =
      c.released := by
    cases hcr : c.released <;> simp [decodeCatch, encodeCatch, hcr]
  refine ⟨by simp [createCatch, hfk, createCatchDB], ⟨_, rfl, ?_⟩, ⟨_, rfl, ?_⟩,
    rfl, ⟨_, rfl, ?_⟩⟩
  · refine ⟨decodeCatch (encodeCatch c d.nextCatchId now),
      List.mem_map_of_mem _ ((List.mem_insertionSort _).mpr
        (List.mem_filter.mpr ⟨hmemc, by simp [encodeCatch]⟩)), rfl, hrel⟩
  · refine ⟨decodeCatch (encodeCatch c d.nextCatchId now),
      List.mem_map_of_mem _ ((List.mem_insertionSort _).mpr hmemc), rfl, hrel⟩
  · refine ⟨decodeLocation (encodeLocation lo d.nextLocationId now),
      List.mem_map_of_mem _ ((List.mem_insertionSort _).mpr ?_), rfl, ?_⟩
    · rw [createLocationDB]
      exact List.mem_append_right _ (List.mem_singleton.mpr rfl)
    · cases hf : lo.isFavorite <;> simp [decodeLocation, encodeLocation, hf]

/-- Witness for C8: a released Bass catch and a favorite location on the
five-trip store round-trip their booleans. -/
theorem boolean_fields_round_trip_witness :
    tripExists fiveTripDB (mkCatchInput 1 "Bass" "09:00" true).tripId = true ∧
    (createCatch ⟨some fiveTripDB⟩ (mkCatchInput 1 "Bass" "09:00" true) "T1" =
       .ok (fiveTripDB.nextCatchId,
         ⟨some (createCatchDB fiveTripDB (mkCatchInput 1 "Bass" "09:00" true) "T1").2⟩) ∧
     (∃ cs, getCatchesByTripId
         ⟨some (createCatchDB fiveTripDB (mkCatchInput 1 "Bass" "09:00" true) "T1").2⟩
         (mkCatchInput 1 "Bass" "09:00" true).tripId = .ok cs ∧
        ∃ c2 ∈ cs, c2.id = fiveTripDB.nextCatchId ∧
          c2.released = (mkCatchInput 1 "Bass" "09:00" true).released) ∧
     (∃ cs, getAllCatches
         ⟨some (createCatchDB fiveTripDB (mkCatchInput 1 "Bass" "09:00" true) "T1").2⟩
         none none = .ok cs ∧
        ∃ c2 ∈ cs, c2.id = fiveTripDB.nextCatchId ∧
          c2.released = (mkCatchInput 1 "Bass" "09:00" true).released) ∧
     createLocation ⟨some fiveTripDB⟩ ⟨"Dock", 1, 2, none, true⟩ "T1" =
       .ok (fiveTripDB.nextLocationId,
         ⟨some (createLocationDB fiveTripDB ⟨"Dock", 1, 2, none, true⟩ "T1").2⟩) ∧
     (∃ ls, getLocations
         ⟨some (createLocationDB fiveTripDB ⟨"Dock", 1, 2, none, true⟩ "T1").2⟩
         false = .ok ls ∧
        ∃ l2 ∈ ls, l2.id = fiveTripDB.nextLocationId ∧
          l2.isFavorite = (⟨"Dock", 1, 2, none, true⟩ : LocationInput).isFavorite)) :=
  ⟨by decide,
   boolean_fields_round_trip fiveTripDB (mkCatchInput 1 "Bass" "09:00" true)
     ⟨"Dock", 1, 2, none, true⟩ "T1" (by decide)⟩

/-- A trip created with an explicitly supplied `temperature` of `0`. -/
def zeroTempInput : TripInput :=
  { date := "2024-05-01", startTime := "08:00", locationName := "Lake",
    temperature := some 0 }

/-- The store after creating `zeroTempInput`. -/
def zeroTempState : ServiceState :=
  stepState (createTrip (initService ⟨none⟩) zeroTempInput
    "2024-05-01T06:00:00.000Z")

/-- The row `getTripById` returns for `zeroTempState`: temperature NULL,
both timestamps the creation instant. -/
def zeroTempReadback : FishingTrip :=
  { id := 1
    date := "2024-05-01"
    startTime := "08:00"
    endTime := none
    locationName := "Lake"
    latitude := none
    longitude := none
    weather := none
    temperature := none
    notes := none
    createdAt := "2024-05-01T06:00:00.000Z"
    updatedAt := "2024-05-01T06:00:00.000Z" }

/-- C1. `createTrip` does not round-trip all supplied fields: a supplied
`temperature` of `0` is falsy, so the `trip.temperature || null` argument
coercion stores SQL NULL, and `getTripById` returns null instead of the
supplied `0`. The timestamps are still set to the identical creation
value. -/
theorem createTrip_coerces_zero_temperature_to_null :
    zeroTempInput.temperature = some 0 ∧
    getTripById zeroTempState 1 = .ok (some zeroTempReadback) ∧
    zeroTempReadback.temperature = none ∧
    zeroTempReadback.createdAt = zeroTempReadback.updatedAt ∧
    (getTripById zeroTempState 1).map (Option.map FishingTrip.temperature) =
      .ok (some none) ∧
    ¬ ((getTripById zeroTempState 1).map (Option.map FishingTrip.temperature) =
        .ok (some (some 0))) := by decide

/-- The store holding one trip with date `"2024-05-01"` and temperature
`20`. -/
def presenceBase : ServiceState :=
  stepState (createTrip (initService ⟨none⟩)
    { date := "2024-05-01", startTime := "08:00", locationName := "Lake",
      temperature := some 20 } "T0")

/-- A partial update carrying an empty-string `date` and a zero
`temperature`. -/
def presenceUpdate : TripUpdate := { date := some "", temperature := some 0 }

/-- The store after applying `presenceUpdate` to trip 1. -/
def presenceState : ServiceState :=
  (updateTrip presenceBase 1 presenceUpdate "T9").toOption.getD ⟨none⟩

/-- The row `getTripById` returns for `presenceState`: the empty-string
date was dropped, the zero temperature applied, updatedAt refreshed. -/
def presenceReadback : FishingTrip :=
  { id := 1
    date := "2024-05-01"
    startTime := "08:00"
    endTime := none
    locationName := "Lake"
    latitude := none
    longitude := none
    weather := none
    temperature := some 0
    notes := none
    createdAt := "T0"
    updatedAt := "T9" }

/-- C2. `updateTrip` does not apply every present field: the present
`temperature = 0` is applied (its guard tests `!== undefined`), but the
present empty-string `date` is dropped because the `date` guard is the
truthiness test `if (updates.date)` — presence does not determine
application for date, startTime, locationName (and species, time in
`updateCatch`). -/
theorem updateTrip_truthiness_drops_empty_date :
    presenceUpdate.date = some "" ∧
    presenceUpdate.temperature = some 0 ∧
    updateTrip presenceBase 1 presenceUpdate "T9" = .ok presenceState ∧
    getTripById presenceState 1 = .ok (some presenceReadback) ∧
    presenceReadback.date = "2024-05-01" ∧
    presenceReadback.temperature = some 0 ∧
    presenceReadback.updatedAt = "T9" ∧
    ¬ ((getTripById presenceState 1).map (Option.map FishingTrip.date) =
        .ok (some "")) := by decide

/-- The store holding exactly one trip. -/
def oneTripState : ServiceState :=
  stepState (createTrip (initService ⟨none⟩)
    (mkTripInput "2024-05-01" "08:00") "T0")

/-- C10 counterexample: on a store with one trip, `getTrips(1, 5)` (a truthy
limit with an offset past the end) returns the empty list even though rows
exist — a caller can obtain an empty page from these operations. -/
theorem offset_past_end_empty_page_counterexample :
    getTrips oneTripState none none =
      .ok [encodeTrip (mkTripInput "2024-05-01" "08:00") 1 "T0"] ∧
    getTrips oneTripState (some 1) (some 5) = .ok [] := by decide

/-- C10 (amended). A limit of `0` is falsy, so no LIMIT clause is built and
all rows are returned (for `getTrips` and `getAllCatches` alike); an offset
of `0` is likewise ignored; so no empty page can be requested through a zero
limit — but an offset at or past the end of the rows, under a truthy limit,
still yields an empty page. -/
theorem zero_limit_returns_all_rows (d : DB) (o : Option Nat) (l m : Nat)
    (hl : l ≠ 0) (hm : d.trips.length ≤ m) (hm2 : d.catches.length ≤ m) :
    getTrips ⟨some d⟩ (some 0) o = getTrips ⟨some d⟩ none none ∧
    getAllCatches ⟨some d⟩ (some 0) o = getAllCatches ⟨some d⟩ none none ∧
    getTrips ⟨some d⟩ (some l) (some 0) = getTrips ⟨some d⟩ (some l) none ∧
    getAllCatches ⟨some d⟩ (some l) (some 0) =
      getAllCatches ⟨some d⟩ (some l) none ∧
    getTrips ⟨some d⟩ (some l) (some m) = .ok [] ∧
    getAllCatches ⟨some d⟩ (some l) (some m) = .ok [] := by
  refine ⟨rfl, rfl, rfl, rfl, ?_, ?_⟩
  · cases m with
    | zero =>
      have : d.trips = [] := List.length_eq_zero.mp (Nat.le_zero.mp hm)
      simp [getTrips, jsTruthyNat, hl, sortTrips, this]
    | succ k =>
      have hlen : (sortTrips d.trips).length ≤ k + 1 := by
        rw [sortTrips, List.length_insertionSort]; exact hm
      simp [getTrips, jsTruthyNat, hl, List.drop_eq_nil_of_le hlen]
  · cases m with
    | zero =>
      have : d.catches = [] := List.length_eq_zero.mp (Nat.le_zero.mp hm2)
      simp [getAllCatches, jsTruthyNat, hl, this]
    | succ k =>
      have hlen : (d.catches.insertionSort rowCreatedDesc).length ≤ k + 1 := by
        rw [List.length_insertionSort]; exact hm2
      simp [getAllCatches, jsTruthyNat, hl, List.drop_eq_nil_of_le hlen]

/-- Witness for C10: on the five-trip store, a zero limit returns all five
trips and offset 7 with limit 2 yields the empty page. -/
theorem zero_limit_returns_all_rows_witness :
    ((2 : Nat) ≠ 0 ∧ fiveTripDB.trips.length ≤ 7 ∧
     fiveTripDB.catches.length ≤ 7) ∧
    (getTrips ⟨some fiveTripDB⟩ (some 0) (some 3) =
       getTrips ⟨some fiveTripDB⟩ none none ∧
     getAllCatches ⟨some fiveTripDB⟩ (some 0) (some 3) =
       getAllCatches ⟨some fiveTripDB⟩ none none ∧
     getTrips ⟨some fiveTripDB⟩ (some 2) (some 0) =
       getTrips ⟨some fiveTripDB⟩ (some 2) none ∧
     getAllCatches ⟨some fiveTripDB⟩ (some 2) (some 0) =
       getAllCatches ⟨some fiveTripDB⟩ (some 2) none ∧
     getTrips ⟨some fiveTripDB⟩ (some 2) (some 7) = .ok [] ∧
     getAllCatches ⟨some fiveTripDB⟩ (some 2) (some 7) = .ok []) :=
  ⟨⟨by decide, by decide, by decide⟩,
   zero_limit_returns_all_rows fiveTripDB (some 3) 2 7
     (by decide) (by decide) (by decide)⟩

end FishLog
